import Mathlib

/-!
Shallow embedding of `src/pdf_extractor.py` (D2X-Enterprises/pdf-extractor).

The filesystem is modelled explicitly: each page owns two artifact slots, a
PNG image (tracked only by existence, its bytes are produced by the external
rasterizer) and a text artifact (tracked by content, since the pipeline's
control flow reads it).  External engines (PyMuPDF rendering, Tesseract OCR,
spaCy NER) are modelled by their observable outcomes, as the spec directs.
All machine text is modelled as Lean `String`/`List Char`.
-/

namespace PdfExtractor

/-- State of one page's text artifact as seen by a reader:
the file may be absent, present but unreadable (an `open`/`read` that raises,
caught by the aggregation passes), or present with content. -/
inductive TxtArtifact where
  | missing
  | unreadable
  | content (s : String)
deriving DecidableEq

/-- `true` iff the text artifact file exists on disk (`txt_filepath.exists()`);
an unreadable file still exists. -/
def TxtArtifact.existsOnDisk : TxtArtifact → Bool
  | .missing => false
  | _ => true

/-- On-disk state of one page's two artifact slots
(`png_images/NNNN.png` existence and `text_files/NNNN.txt`). -/
structure PageFS where
  png : Bool
  txt : TxtArtifact
deriving DecidableEq

/-- Observable behaviour of the external engines for one page task
(`pdf_extractor.py` lines 74-98): the fitz open/load/render steps may raise
before the PNG is persisted (`loadFail`), the OCR step may raise after the
PNG is persisted (`ocrFail`), or recognition succeeds with some text.
The message is the Python-rendered exception text `type(e).__name__: str(e)`. -/
inductive EngineOutcome where
  | loadFail (msg : String)
  | ocrFail (msg : String)
  | ok (text : String)
deriving DecidableEq

/-- The tuple returned by `process_page_task`
(`(success_status, page_index, error_message or None)`, line 58). -/
structure PageTaskResult where
  success : Bool
  pageIndex : Nat
  errorMsg : Option String
deriving DecidableEq

/-- Line 94: `error_msg = f"OCR failed: {...}: {...}"`; the exception's
rendered class name and message are abstracted into `msg`. -/
def errorString (msg : String) : String := "OCR failed: " ++ msg

/-- Line 97: the fixed text written at the start of a failure-sentinel
text artifact. -/
def FAILURE_SENTINEL_START : String := "OCR FAILED FOR THIS PAGE: "

/-- Full content of a failure-sentinel text artifact (line 97):
`f"OCR FAILED FOR THIS PAGE: {error_msg}"`. -/
def sentinelText (errMsg : String) : String := FAILURE_SENTINEL_START ++ errMsg

/-- The substring the aggregation passes look for to detect a failed page
(lines 163, 269, 356: `if "OCR FAILED" in content`). -/
def OCR_FAILED_MARKER : String := "OCR FAILED"

/-- `pdf_extractor.py` lines 55-102, `process_page_task`.
Input: the 0-based page number `page_num`, the pre-existing artifact state
`fs` of this page, and the engine outcome for this page.  Returns the result
tuple and the new artifact state.
- Lines 69-71: if both artifacts already exist, return `(True, page_index,
  None)` immediately (skip path; no render, no OCR, filesystem untouched).
- Lines 74-90: render persists the PNG, OCR output is trimmed and written
  to the text artifact, return `(True, page_index, None)`.
- Lines 92-98: on any exception, write the failure sentinel into the text
  artifact and return `(False, page_index, error_msg)`; the PNG slot holds
  whatever the failure point left there (absent for a load/render failure,
  present for an OCR failure). -/
def process_page_task (page_num : Nat) (fs : PageFS) (eng : EngineOutcome) :
    PageTaskResult × PageFS :=
  let page_index := page_num + 1
  if fs.png && fs.txt.existsOnDisk then
    (⟨true, page_index, none⟩, fs)
  else
    match eng with
    | .loadFail msg =>
        let e := errorString msg
        (⟨false, page_index, some e⟩, ⟨fs.png, .content (sentinelText e)⟩)
    | .ocrFail msg =>
        let e := errorString msg
        (⟨false, page_index, some e⟩, ⟨true, .content (sentinelText e)⟩)
    | .ok text =>
        (⟨true, page_index, none⟩, ⟨true, .content text.trim⟩)

/-- `pdf_extractor.py` lines 105-131, `get_last_processed_page`.
The directory scan is modelled by the list of pages that have at least one
artifact, with each page's `PageFS`.  A page is collected iff its PNG file
exists and the same-numbered TXT file exists (lines 119-126); the content of
the text artifact is never inspected.  Returns the maximum collected page,
or 0 when none (lines 128-131). -/
def get_last_processed_page (fs : List (Nat × PageFS)) : Nat :=
  ((fs.filter (fun x => x.2.png && x.2.txt.existsOnDisk)).map Prod.fst).foldr max 0

/-- Substring test on character lists, mirroring Python's `in` operator on
`str` (structural recursion so that it evaluates in the kernel). -/
def containsSub (pat : List Char) : List Char → Bool
  | [] => pat.isEmpty
  | c :: cs => pat.isPrefixOf (c :: cs) || containsSub pat cs

/-- `if "OCR FAILED" in content` (lines 163, 269, 356). -/
def hasFailureMarker (s : String) : Bool :=
  containsSub OCR_FAILED_MARKER.data s.data

/-- Python word characters for the `\b` boundary of the tokenizing regex
`\b[a-zA-Z0-9]+\b` (ASCII fragment): `[a-zA-Z0-9_]`. -/
def isWordChar (c : Char) : Bool := c.isAlphanum || c == '_'

/-- Maximal runs of characters satisfying `p`, accumulator-style (the
accumulator holds the current run reversed). -/
def runsAux (p : Char → Bool) : List Char → List Char → List (List Char)
  | [], acc => if acc.isEmpty then [] else [acc.reverse]
  | c :: cs, acc =>
      if p c then runsAux p cs (c :: acc)
      else if acc.isEmpty then runsAux p cs []
      else acc.reverse :: runsAux p cs []

/-- Lines 167-170: `re.findall(r'\b[a-zA-Z0-9]+\b', content.lower())`
followed by `[w for w in words if len(w) > 2]`.
`findall` of that pattern yields exactly the maximal word-character runs
that contain no underscore (a run containing `_` has no inner `\b`
boundary, so no token can be carved out of it). -/
def tokenize (s : String) : List String :=
  let lowered := s.data.map Char.toLower
  let runs := runsAux isWordChar lowered []
  let words := runs.filter (fun r => !(r.contains '_'))
  ((words.filter (fun r => decide (2 < r.length))).map (fun r => String.mk r))

/-- The page range `range(start_page, end_page + 1)` iterated by every
aggregation pass (lines 151, 257, 343). -/
def pageRange (start_page end_page : Nat) : List Nat :=
  List.range' start_page (end_page + 1 - start_page)

/-- One `word_occurrences` entry (line 148):
`{word: {'count': int, 'pages': set}}`.  The page set is modelled as a
duplicate-free list in insertion order. -/
structure WordStat where
  word : String
  count : Nat
  pages : List Nat
deriving DecidableEq

/-- Lines 178-180: `word_occurrences[word]['count'] += 1` and
`...['pages'].add(page_index)` on an insertion-ordered table. -/
def addWordStat : List WordStat → Nat → String → List WordStat
  | [], p, w => [⟨w, 1, [p]⟩]
  | s :: rest, p, w =>
      if s.word = w then
        ⟨s.word, s.count + 1, if p ∈ s.pages then s.pages else s.pages ++ [p]⟩ :: rest
      else
        s :: addWordStat rest p w

/-- The in-memory statistics accumulated by `generate_word_count_csv`
(lines 146-148) before the CSV is written. -/
structure WordReport where
  totalWords : Nat
  pageCounts : List (Nat × Nat)
  occurrences : List WordStat
deriving DecidableEq

/-- Loop body of `generate_word_count_csv` (lines 151-184): a page is
skipped when its text artifact is missing (line 155), when reading raises
(line 182), or when the content contains the failure marker (line 163);
otherwise its tokens update the three statistics (lines 167-180). -/
def wordReportStep (σ : Nat → TxtArtifact) (acc : WordReport) (p : Nat) : WordReport :=
  match σ p with
  | .missing => acc
  | .unreadable => acc
  | .content content =>
      if hasFailureMarker content then acc
      else
        let words := tokenize content
        ⟨acc.totalWords + words.length,
         acc.pageCounts ++ [(p, words.length)],
         words.foldl (fun occ w => addWordStat occ p w) acc.occurrences⟩

/-- `pdf_extractor.py` lines 133-228, `generate_word_count_csv`: the
statistics side of the pass (the subsequent CSV serialization of these
exact values, lines 190-223, is plain formatting). -/
def generate_word_count_csv (σ : Nat → TxtArtifact) (start_page end_page : Nat) :
    WordReport :=
  (pageRange start_page end_page).foldl (wordReportStep σ) ⟨0, [], []⟩

/-- Loop body of `generate_proper_names_csv` (lines 257-270), reduced to
which pages are handed to the NER engine: missing (line 261), unreadable
(line 296) and marker-bearing (line 269) pages are skipped. -/
def proper_names_step (σ : Nat → TxtArtifact) (acc : List Nat) (p : Nat) :
    List Nat :=
  match σ p with
  | .missing => acc
  | .unreadable => acc
  | .content content =>
      if hasFailureMarker content then acc else acc ++ [p]

/-- Page-selection logic of `generate_proper_names_csv` (lines 230-327):
the list of pages whose text is handed to the NER engine.  The extraction
itself is the external spaCy recognizer and is out of scope (spec section 2);
only the shared skip logic is modelled. -/
def proper_names_pages (σ : Nat → TxtArtifact) (start_page end_page : Nat) :
    List Nat :=
  (pageRange start_page end_page).foldl (proper_names_step σ) []

/-- Loop body of `combine_text_files` (lines 343-367): accumulates
`(combined_content as (page, content) pairs, skipped_pages)`.  A page is
appended to `skipped_pages` when the text artifact is missing (line 347),
contains the failure marker (line 356), or cannot be read (line 364);
otherwise its `(page, content)` entry is appended to the combined list. -/
def combineStep (σ : Nat → TxtArtifact) (acc : List (Nat × String) × List Nat)
    (p : Nat) : List (Nat × String) × List Nat :=
  match σ p with
  | .missing => (acc.1, acc.2 ++ [p])
  | .unreadable => (acc.1, acc.2 ++ [p])
  | .content content =>
      if hasFailureMarker content then (acc.1, acc.2 ++ [p])
      else (acc.1 ++ [(p, content)], acc.2)

/-- `pdf_extractor.py` lines 330-381, `combine_text_files`: the pass over
`range(start_page, end_page + 1)` producing the combined entries (in loop
order) and the skipped-page list. -/
def combine_text_files (σ : Nat → TxtArtifact) (start_page end_page : Nat) :
    List (Nat × String) × List Nat :=
  (pageRange start_page end_page).foldl (combineStep σ) ([], [])

/-- Lines 361-363: the three strings appended to `combined_content` for one
included page: the page delimiter, the content, and a blank separator. -/
def combineEntryText (p : Nat) (content : String) : String :=
  ("--- Page " ++ toString p ++ " ---\n") ++ content ++ "\n\n"

/-- The bytes written to `combined_output.txt` (lines 369-375):
`f.writelines(combined_content)`; no file is written when nothing was
combined (line 369-371), modelled as `none`. -/
def combinedOutput (σ : Nat → TxtArtifact) (start_page end_page : Nat) :
    Option String :=
  let c := (combine_text_files σ start_page end_page).1
  if c.isEmpty then none
  else some (String.join (c.map (fun e => combineEntryText e.1 e.2)))

/-- The text-artifact store produced by a set of per-page writes, one write
per page (each worker owns exactly its own page's artifacts, spec section 5).
The list order is the completion order of the workers; a page nobody wrote
is missing. -/
def buildFS (writes : List (Nat × TxtArtifact)) : Nat → TxtArtifact :=
  fun p =>
    match writes.find? (fun w => w.1 = p) with
    | some w => w.2
    | none => .missing

/-- Zero-padded page number used in progress/failure messages
(`f"{page_index:04d}"`). -/
def pad4 (n : Nat) : String :=
  let s := toString n
  if s.length < 4 then String.mk (List.replicate (4 - s.length) '0') ++ s else s

/-- The scheduler's accumulator (lines 433-435): `success_count`,
`failure_count`, `failure_messages`. -/
structure RunTally where
  success : Nat
  failure : Nat
  messages : List String
deriving DecidableEq

/-- Lines 437-450, the body of the `as_completed` loop: a result with
`success = True` increments `success_count` only when `error_msg is None`
(line 442); a result with `success = False` increments `failure_count` and
appends `f"Page {page_index:04d}: {error_msg}"` (lines 448-449). -/
def tallyStep (t : RunTally) (r : PageTaskResult) : RunTally :=
  if r.success then
    if r.errorMsg = none then ⟨t.success + 1, t.failure, t.messages⟩ else t
  else
    ⟨t.success, t.failure + 1,
     t.messages ++ [("Page " ++ pad4 r.pageIndex ++ ": ") ++ (r.errorMsg.getD (""))]⟩

/-- Folding the tally over the results in their completion order. -/
def tally (rs : List PageTaskResult) : RunTally :=
  rs.foldl tallyStep ⟨0, 0, []⟩

/-- One submitted unit of work: the 0-based page number, the page's
pre-existing artifact state, and the engine outcome for it. -/
abbrev PageUnit := Nat × PageFS × EngineOutcome

/-- The worker results gathered by `as_completed` (line 437); the input list
order is the arbitrary completion order. -/
def runPipeline (units : List PageUnit) : List PageTaskResult :=
  units.map (fun u => (process_page_task u.1 u.2.1 u.2.2).1)

/-- `pdf_extractor.py` lines 384-479, `process_pdf`: submits every page in
the range, drains completions into the tally.  The aggregation passes
(lines 469-475) run when `success_count > 0`; they read the artifact store
and are modelled by `combine_text_files`, `generate_word_count_csv` and
`proper_names_pages` above, and do not affect the returned tally or the
control flow. -/
def process_pdf (units : List PageUnit) : RunTally :=
  tally (runPipeline units)

/-- Observable behaviour of one document in batch mode: `fitz.open` raises
(line 511, a corrupt document), or the document opens with a page count and
its submitted page units. -/
inductive DocBehavior where
  | openFail (msg : String)
  | opened (totalPages : Nat) (units : List PageUnit)

/-- `pdf_extractor.py` lines 500-531, `process_single_pdf`: every exception
in the document's pipeline is caught and returned as `(False, error_msg)`
(lines 529-531); a zero-page document returns `(False, "PDF contains 0
pages")` (lines 515-516); otherwise `process_pdf` runs (page-level failures
are absorbed into its tally, they raise nothing) and the function returns
`(True, None)` (line 527). -/
def process_single_pdf (d : DocBehavior) : Bool × Option String :=
  match d with
  | .openFail msg => (false, some msg)
  | .opened 0 _ => (false, some ("PDF contains 0 pages"))
  | .opened (_ + 1) units =>
      let _ := process_pdf units
      (true, none)

/-- The `results` dictionary of `process_directory` (lines 554-557). -/
structure BatchResults where
  successful : List String
  failed : List (String × String)
deriving DecidableEq

/-- `pdf_extractor.py` lines 534-605, `process_directory`, paired with
`log_error_to_file` (lines 482-497): processes the documents sequentially;
a success appends the name to `results['successful']`, a failure appends
`(name, error)` to `results['failed']` and appends exactly one block to the
source directory's `error_log.txt`.  The log is modelled as the list of
appended `(document name, error message)` blocks; the block's wall-clock
timestamp (line 487) is outside the model. -/
def batchStep (acc : BatchResults × List (String × String))
    (d : String × DocBehavior) : BatchResults × List (String × String) :=
  let r := process_single_pdf d.2
  if r.1 then
    (⟨acc.1.successful ++ [d.1], acc.1.failed⟩, acc.2)
  else
    (⟨acc.1.successful, acc.1.failed ++ [(d.1, r.2.getD (""))]⟩,
     acc.2 ++ [(d.1, r.2.getD (""))])

/-- The sequential fold of `process_directory` over the sorted document
list (lines 562-579). -/
def process_directory (docs : List (String × DocBehavior)) :
    BatchResults × List (String × String) :=
  docs.foldl batchStep (⟨[], []⟩, [])

/-- ASCII `str.lower()` on the path suffix (line 676). -/
def lowerStr (s : String) : String := String.mk (s.data.map Char.toLower)

/-- The single mode command accepted by the interactive loop that the
embedding exercises (lines 708-763): `'a'` (process all pages) or `'q'`
(quit, `sys.exit(0)`).  The range/resume commands only change which pages
are submitted and also end in `process_pdf` followed by a normal exit. -/
inductive Mode where
  | all
  | quit

/-- The input path as classified by `setup_and_run` (lines 661-674):
absent, a directory of documents, a regular file with its suffix and open
behaviour, or something else. -/
inductive CLIPath where
  | missing
  | isDir (docs : List (String × DocBehavior))
  | isFile (suffix : String) (d : DocBehavior)
  | other

/-- `pdf_extractor.py` lines 608-774, `setup_and_run`, reduced to its exit
code (0 = the script ran to completion or `sys.exit(0)`):
- missing path: `sys.exit(1)` (line 666);
- directory: batch mode, always finishes with exit 0 (lines 669-672);
- file whose lowered suffix is not `.pdf`: `sys.exit(1)` (lines 676-678);
- file that `fitz.open` cannot read: `sys.exit(1)` (lines 692-694);
- otherwise the chosen mode either quits (exit 0, line 714-716) or runs
  `process_pdf` over the submitted units and falls off the end (exit 0);
  no check of the page count or of the tally ever reaches `sys.exit`. -/
def setup_and_run (p : CLIPath) (m : Mode) : Nat :=
  match p with
  | .missing => 1
  | .isDir docs =>
      let _ := process_directory docs
      0
  | .isFile suffix d =>
      if lowerStr suffix ≠ ".pdf" then 1
      else
        match d with
        | .openFail _ => 1
        | .opened _ units =>
            match m with
            | .quit => 0
            | .all =>
                let _ := process_pdf units
                0
  | .other => 1

/-- Follows the spec's words (spec sections 4.1 and 8, claim C2): a page is
"fully completed" when both artifacts are present and the text is not a
failure sentinel ("text beginning with the fixed marker"); the query should
return the highest fully-completed page, or 0. -/
def spec_fully_completed (fs : PageFS) : Bool :=
  fs.png &&
    (match fs.txt with
     | .content s => !(OCR_FAILED_MARKER.data.isPrefixOf s.data)
     | _ => false)

/-- Follows the spec's words (claim C2): the highest fully-completed page
index, or 0 when none exists. -/
def spec_last_fully_completed (fs : List (Nat × PageFS)) : Nat :=
  ((fs.filter (fun x => spec_fully_completed x.2)).map Prod.fst).foldr max 0

/-- Follows the spec's words (spec section 4.3, claim C3): the number of
submitted units whose worker takes the `SkippedAlreadyDone` path (both
artifacts already exist at the start of the page task).  The source keeps
no such counter. -/
def spec_skip_count (units : List PageUnit) : Nat :=
  units.countP (fun u => u.2.1.png && u.2.1.txt.existsOnDisk)

/-- The exclusion condition shared by the three aggregation passes
(lines 155/163, 261/269, 347/356 plus the read-error handlers): a page is
left out iff its text artifact is missing, unreadable, or its content
contains the failure marker. -/
def pageExcluded : TxtArtifact → Bool
  | .missing => true
  | .unreadable => true
  | .content s => hasFailureMarker s

/-- Artifact state after pages `1..k` were processed successfully (both
artifacts present, text `txt`) and page `k+1` failed before its PNG was
persisted (load/render failure): the sentinel text artifact exists but the
image artifact does not. -/
def resumeStateRenderFail (k : Nat) (txt msg : String) : List (Nat × PageFS) :=
  ((List.range k).map (fun i => (i + 1, ⟨true, .content txt⟩)))
    ++ [(k + 1, ⟨false, .content (sentinelText msg)⟩)]

/-- Artifact state after pages `1..k` were processed successfully and page
`k+1` failed in the OCR step (line 85), after its PNG was persisted
(line 81): both artifact files exist, the text artifact is a failure
sentinel. -/
def resumeStateOcrFail (k : Nat) (txt msg : String) : List (Nat × PageFS) :=
  ((List.range k).map (fun i => (i + 1, ⟨true, .content txt⟩)))
    ++ [(k + 1, ⟨true, .content (sentinelText msg)⟩)]

/-- A successfully recognized page text that happens to contain the
substring `OCR FAILED` without beginning with it (it is not a sentinel). -/
def c6text : String := "Chapter 3: WHY MY OCR FAILED and how I fixed it"

/-- The two-page artifact store of the spec's word-report example
(spec section 8). -/
def c8Store : Nat → TxtArtifact := fun p =>
  if p = 1 then .content ("The cat sat.")
  else if p = 2 then .content ("The cat ran.")
  else .missing

/-! ### Helper lemmas -/

/-- A pattern occurring at the front of a list is found by `containsSub`. -/
theorem containsSub_of_isPrefixOf {pat l : List Char}
    (h : pat.isPrefixOf l = true) : containsSub pat l = true := by
  cases l with
  | nil =>
      cases pat with
      | nil => rfl
      | cons a as => simp at h
  | cons c cs => simp [containsSub, h]

/-- Every failure sentinel contains the marker the aggregation passes look
for, whatever the captured error message is. -/
theorem hasFailureMarker_sentinel (msg : String) :
    hasFailureMarker (sentinelText msg) = true := by
  apply containsSub_of_isPrefixOf
  rw [List.isPrefixOf_iff_prefix]
  have h1 : OCR_FAILED_MARKER.data <+: FAILURE_SENTINEL_START.data := by decide
  have h2 : FAILURE_SENTINEL_START.data <+:
      (sentinelText msg).data := by
    rw [show (sentinelText msg).data
          = FAILURE_SENTINEL_START.data ++ msg.data from rfl]
    exact List.prefix_append _ _
  exact h1.trans h2

/-- Every character of every run produced by `runsAux` satisfies the run
predicate. -/
theorem runsAux_pred (p : Char → Bool) :
    ∀ (cs acc : List Char), (∀ a ∈ acc, p a = true) →
      ∀ r ∈ runsAux p cs acc, ∀ c ∈ r, p c = true := by
  intro cs
  induction cs with
  | nil =>
      intro acc hacc r hr c hc
      by_cases he : acc.isEmpty
      · simp [runsAux, he] at hr
      · simp [runsAux, he] at hr
        subst hr
        exact hacc c (List.mem_reverse.1 hc)
  | cons a as ih =>
      intro acc hacc r hr c hc
      by_cases hp : p a
      · simp only [runsAux, hp, if_pos] at hr
        refine ih (a :: acc) ?_ r hr c hc
        intro x hx
        rcases List.mem_cons.1 hx with h | h
        · subst h; exact hp
        · exact hacc x h
      · by_cases he : acc.isEmpty
        · simp only [runsAux, hp, he, if_neg, if_pos, Bool.false_eq_true,
            not_false_eq_true] at hr
          exact ih [] (by simp) r hr c hc
        · simp only [runsAux, hp, he, Bool.false_eq_true, not_false_eq_true,
            if_neg, if_pos] at hr
          rcases List.mem_cons.1 hr with h | h
          · subst h
            exact hacc c (List.mem_reverse.1 hc)
          · exact ih [] (by simp) r h c hc

/-- Folding `max` over `[1, …, k]` starting from `b` yields `max k b`. -/
theorem foldr_max_range (k : Nat) :
    ∀ b : Nat, (((List.range k).map (fun i => i + 1)).foldr max b) = max k b := by
  induction k with
  | zero => intro b; simp
  | succ n ih =>
      intro b
      rw [List.range_succ, List.map_append, List.foldr_append]
      simp only [List.map_cons, List.map_nil, List.foldr_cons, List.foldr_nil]
      rw [ih]
      omega

/-- The success counter counts exactly the results with `success = True`
and `error_msg is None`, whatever the accumulator. -/
theorem tally_success_countP (rs : List PageTaskResult) :
    ∀ t : RunTally, (rs.foldl tallyStep t).success
      = t.success + rs.countP (fun r => r.success && decide (r.errorMsg = none)) := by
  induction rs with
  | nil => intro t; simp
  | cons r rs ih =>
      intro t
      rw [List.foldl_cons, ih, List.countP_cons]
      by_cases hs : r.success
      · by_cases he : r.errorMsg = none
        · simp [tallyStep, hs, he]
          omega
        · simp [tallyStep, hs, he]
      · simp [tallyStep, hs]

/-- The failure counter counts exactly the results with `success = False`,
whatever the accumulator. -/
theorem tally_failure_countP (rs : List PageTaskResult) :
    ∀ t : RunTally, (rs.foldl tallyStep t).failure
      = t.failure + rs.countP (fun r => !r.success) := by
  induction rs with
  | nil => intro t; simp
  | cons r rs ih =>
      intro t
      rw [List.foldl_cons, ih, List.countP_cons]
      by_cases hs : r.success
      · by_cases he : r.errorMsg = none
        · simp [tallyStep, hs, he]
        · simp [tallyStep, hs, he]
      · simp [tallyStep, hs]
        omega

/-- Every result of `process_page_task` is one of the two shapes the code
can produce: `(True, _, None)` or `(False, _, Some msg)`. -/
theorem process_page_task_shapes (n : Nat) (fs : PageFS) (eng : EngineOutcome) :
    ((process_page_task n fs eng).1.success = true
      ∧ (process_page_task n fs eng).1.errorMsg = none)
    ∨ ((process_page_task n fs eng).1.success = false
      ∧ ∃ m, (process_page_task n fs eng).1.errorMsg = some m) := by
  unfold process_page_task
  by_cases h : fs.png && fs.txt.existsOnDisk
  · simp [h]
  · cases eng with
    | loadFail msg => simp [h]
    | ocrFail msg => simp [h]
    | ok text => simp [h]

/-- The two tally predicates are complementary over results of the two
shapes the worker can produce. -/
theorem countP_shapes (rs : List PageTaskResult)
    (h : ∀ r ∈ rs, (r.success = true ∧ r.errorMsg = none)
        ∨ (r.success = false ∧ ∃ m, r.errorMsg = some m)) :
    rs.countP (fun r => r.success && decide (r.errorMsg = none))
      + rs.countP (fun r => !r.success) = rs.length := by
  induction rs with
  | nil => simp
  | cons r rs ih =>
      rw [List.countP_cons, List.countP_cons, List.length_cons]
      have hr := h r (List.mem_cons_self r rs)
      have hrest : ∀ x ∈ rs, (x.success = true ∧ x.errorMsg = none)
          ∨ (x.success = false ∧ ∃ m, x.errorMsg = some m) :=
        fun x hx => h x (List.mem_cons_of_mem r hx)
      have hih := ih hrest
      rcases hr with ⟨hs, he⟩ | ⟨hs, m, he⟩
      · simp only [hs, he]
        simp
        omega
      · simp only [hs, he]
        simp
        omega

/-- Over worker results, the counters sum to the number of submitted units. -/
theorem tally_sum_eq_length (units : List PageUnit) :
    (tally (runPipeline units)).success + (tally (runPipeline units)).failure
      = units.length := by
  unfold tally
  rw [tally_success_countP, tally_failure_countP]
  simp only [Nat.zero_add]
  have h : ∀ r ∈ runPipeline units,
      (r.success = true ∧ r.errorMsg = none)
        ∨ (r.success = false ∧ ∃ m, r.errorMsg = some m) := by
    intro r hr
    rcases List.mem_map.1 hr with ⟨u, _, rfl⟩
    exact process_page_task_shapes u.1 u.2.1 u.2.2
  have := countP_shapes (runPipeline units) h
  simpa [runPipeline] using this

/-- The pages collected by the combine loop are exactly the visited pages
whose artifact is not excluded, in visit order. -/
theorem combine_fold_pages (σ : Nat → TxtArtifact) :
    ∀ (l : List Nat) (acc : List (Nat × String) × List Nat),
      ((l.foldl (combineStep σ) acc).1).map Prod.fst
        = acc.1.map Prod.fst ++ l.filter (fun p => !pageExcluded (σ p)) := by
  intro l
  induction l with
  | nil => intro acc; simp
  | cons p ps ih =>
      intro acc
      rw [List.foldl_cons, ih, List.filter_cons]
      cases hσ : σ p with
      | missing => simp [combineStep, hσ, pageExcluded]
      | unreadable => simp [combineStep, hσ, pageExcluded]
      | content s =>
          by_cases hm : hasFailureMarker s
          · simp [combineStep, hσ, pageExcluded, hm]
          · simp [combineStep, hσ, pageExcluded, hm]

/-- The pages recorded in `page_word_counts` are exactly the visited pages
whose artifact is not excluded, in visit order. -/
theorem word_report_fold_pages (σ : Nat → TxtArtifact) :
    ∀ (l : List Nat) (acc : WordReport),
      ((l.foldl (wordReportStep σ) acc).pageCounts).map Prod.fst
        = acc.pageCounts.map Prod.fst ++ l.filter (fun p => !pageExcluded (σ p)) := by
  intro l
  induction l with
  | nil => intro acc; simp
  | cons p ps ih =>
      intro acc
      rw [List.foldl_cons, ih, List.filter_cons]
      cases hσ : σ p with
      | missing => simp [wordReportStep, hσ, pageExcluded]
      | unreadable => simp [wordReportStep, hσ, pageExcluded]
      | content s =>
          by_cases hm : hasFailureMarker s
          · simp [wordReportStep, hσ, pageExcluded, hm]
          · simp [wordReportStep, hσ, pageExcluded, hm]

/-- The pages handed to the NER engine are exactly the visited pages whose
artifact is not excluded, in visit order. -/
theorem proper_names_fold_pages (σ : Nat → TxtArtifact) :
    ∀ (l : List Nat) (acc : List Nat),
      l.foldl (proper_names_step σ) acc
        = acc ++ l.filter (fun p => !pageExcluded (σ p)) := by
  intro l
  induction l with
  | nil => intro acc; simp
  | cons p ps ih =>
      intro acc
      rw [List.foldl_cons, ih, List.filter_cons]
      cases hσ : σ p with
      | missing => simp [proper_names_step, hσ, pageExcluded]
      | unreadable => simp [proper_names_step, hσ, pageExcluded]
      | content s =>
          by_cases hm : hasFailureMarker s
          · simp [proper_names_step, hσ, pageExcluded, hm]
          · simp [proper_names_step, hσ, pageExcluded, hm]

/-- With one write per page, the artifact store produced from the writes
does not depend on the order in which they happened. -/
theorem buildFS_perm (l l' : List (Nat × TxtArtifact))
    (hnodup : (l.map Prod.fst).Nodup) (hperm : l.Perm l') :
    buildFS l = buildFS l' := by
  funext p
  unfold buildFS
  have huniq : ∀ x ∈ l, ∀ y ∈ l, x.1 = y.1 → x = y := by
    have hpw : l.Pairwise (fun a b => a.1 ≠ b.1) := by
      rw [List.Nodup, List.pairwise_map] at hnodup
      exact hnodup
    have hforall := hpw.forall (fun a b hab => fun h => hab h.symm)
    intro x hx y hy hxy
    by_contra hne
    exact hforall hx hy hne hxy
  cases hfind : l.find? (fun w => w.1 = p) with
  | none =>
      have hnone : ∀ x ∈ l, ¬ (decide (x.1 = p) = true) := List.find?_eq_none.1 hfind
      have : l'.find? (fun w => w.1 = p) = none := by
        rw [List.find?_eq_none]
        intro x hx
        exact hnone x (hperm.mem_iff.2 hx)
      rw [this]
  | some w =>
      have hw : w ∈ l := List.mem_of_find?_eq_some hfind
      have hwp : w.1 = p := by
        have := List.find?_some hfind
        exact of_decide_eq_true this
      cases hfind' : l'.find? (fun w => w.1 = p) with
      | none =>
          exfalso
          have hnone : ∀ x ∈ l', ¬ (decide (x.1 = p) = true) :=
            List.find?_eq_none.1 hfind'
          exact hnone w (hperm.mem_iff.1 hw) (decide_eq_true hwp)
      | some w' =>
          have hw' : w' ∈ l := hperm.mem_iff.2 (List.mem_of_find?_eq_some hfind')
          have htmp := List.find?_some hfind'
          have hwp' : w'.1 = p := of_decide_eq_true htmp
          have : w = w' := huniq w hw w' hw' (hwp.trans hwp'.symm)
          rw [this]

/-- The batch fold processes every document and appends one log block per
failure: document counts and log length, relative to any accumulator. -/
theorem batch_fold_counts :
    ∀ (docs : List (String × DocBehavior)) (acc : BatchResults × List (String × String)),
      ((docs.foldl batchStep acc).1.successful.length
          + (docs.foldl batchStep acc).1.failed.length
        = acc.1.successful.length + acc.1.failed.length + docs.length)
      ∧ ((docs.foldl batchStep acc).2.length + acc.1.failed.length
        = (docs.foldl batchStep acc).1.failed.length + acc.2.length) := by
  intro docs
  induction docs with
  | nil =>
      intro acc
      simp
      omega
  | cons d ds ih =>
      intro acc
      rw [List.foldl_cons]
      by_cases hs : (process_single_pdf d.2).1
      · have := ih (⟨acc.1.successful ++ [d.1], acc.1.failed⟩, acc.2)
        simp only [batchStep, hs, if_pos] at *
        simp at this ⊢
        omega
      · have := ih
          (⟨acc.1.successful, acc.1.failed ++ [(d.1, (process_single_pdf d.2).2.getD (""))]⟩,
           acc.2 ++ [(d.1, (process_single_pdf d.2).2.getD (""))])
        simp only [batchStep, hs, if_neg, Bool.false_eq_true, not_false_eq_true] at *
        simp at this ⊢
        omega

/-! ### Claim theorems -/

/-- C1: a page whose two artifacts already exist at the start of the page
task (the `SkippedAlreadyDone` path, lines 69-71) is tallied: the skip path
returns `(True, page_index, None)`, identical to a fresh success, so the
scheduler increments `success_count` for it (line 442-443) even though the
code's own comment on line 442 says a skipped page must not be counted.
The claim (and the spec) say such a result counts toward neither counter,
so the run tally should have been `⟨0, 0, []⟩`. -/
theorem C1_skip_counted_as_success :
    tally (runPipeline ([(0, ⟨true, .content ("stale text")⟩, .ok ("fresh text"))]))
        = ⟨1, 0, []⟩
      ∧ spec_skip_count ([(0, ⟨true, .content ("stale text")⟩, .ok ("fresh text"))]) = 1 := by
  constructor
  · rfl
  · rfl

/-- C2 counterexample: pages 1..1 fully completed and page 2 holding a
failure-sentinel text artifact next to an existing PNG (an OCR-step failure,
which persists the PNG on line 81 before raising on line 85).
`get_last_processed_page` only tests file existence, so it returns 2, while
the highest fully-completed (non-sentinel) page of this state is 1 — the
claim requires the query to return 1. -/
theorem C2_counterexample :
    get_last_processed_page (resumeStateOcrFail 1 ("page one text") ("boom")) = 2
      ∧ spec_last_fully_completed (resumeStateOcrFail 1 ("page one text") ("boom")) = 1 := by
  constructor
  · rfl
  · rfl

/-- C2 amended: `get_last_processed_page` returns the highest page index
whose PNG and TXT files both exist, ignoring the text content.  When pages
1..k are complete and page k+1 holds a failure sentinel, it returns k
exactly when the failure left no image artifact (load/render failure);
when the image artifact exists (OCR failure) it returns k+1. -/
theorem C2_amended (k : Nat) (txt msg : String) :
    get_last_processed_page (resumeStateRenderFail k txt msg) = k
      ∧ get_last_processed_page (resumeStateOcrFail k txt msg) = k + 1 := by
  constructor
  · unfold get_last_processed_page resumeStateRenderFail
    rw [List.filter_append, List.filter_map]
    have h1 : List.filter
        ((fun (x : Nat × PageFS) => x.2.png && x.2.txt.existsOnDisk)
          ∘ (fun i => (i + 1, (⟨true, TxtArtifact.content txt⟩ : PageFS))))
        (List.range k) = List.range k := by
      rw [List.filter_eq_self]
      intro a _
      rfl
    rw [h1]
    rw [show (List.filter (fun (x : Nat × PageFS) => x.2.png && x.2.txt.existsOnDisk)
        ([(k + 1, (⟨false, TxtArtifact.content (sentinelText msg)⟩ : PageFS))])) = []
      from rfl]
    rw [List.append_nil, List.map_map]
    rw [show (Prod.fst ∘ fun i : Nat => (i + 1, (⟨true, TxtArtifact.content txt⟩ : PageFS)))
        = (fun i : Nat => i + 1) from rfl]
    rw [foldr_max_range k 0]
    omega
  · unfold get_last_processed_page resumeStateOcrFail
    rw [List.filter_append, List.filter_map]
    have h1 : List.filter
        ((fun (x : Nat × PageFS) => x.2.png && x.2.txt.existsOnDisk)
          ∘ (fun i => (i + 1, (⟨true, TxtArtifact.content txt⟩ : PageFS))))
        (List.range k) = List.range k := by
      rw [List.filter_eq_self]
      intro a _
      rfl
    rw [h1]
    rw [show (List.filter (fun (x : Nat × PageFS) => x.2.png && x.2.txt.existsOnDisk)
        ([(k + 1, (⟨true, TxtArtifact.content (sentinelText msg)⟩ : PageFS))]))
        = [(k + 1, (⟨true, TxtArtifact.content (sentinelText msg)⟩ : PageFS))]
      from rfl]
    rw [List.map_append, List.map_map]
    rw [show (Prod.fst ∘ fun i : Nat => (i + 1, (⟨true, TxtArtifact.content txt⟩ : PageFS)))
        = (fun i : Nat => i + 1) from rfl]
    rw [List.map_cons, List.map_nil, List.foldr_append, List.foldr_cons,
      List.foldr_nil]
    rw [foldr_max_range k (max (k + 1) 0)]
    omega

/-- C3 counterexample: one submitted unit (N = 1) whose page is already
complete.  The worker takes the `SkippedAlreadyDone` path but the tally
counts it as a success, so successCount + failureCount + skipCount = 2 ≠ 1. -/
theorem C3_counterexample :
    (tally (runPipeline ([(0, ⟨true, .content ("old page")⟩, .ok ("redo"))]))).success
        + (tally (runPipeline ([(0, ⟨true, .content ("old page")⟩, .ok ("redo"))]))).failure
        + spec_skip_count ([(0, ⟨true, .content ("old page")⟩, .ok ("redo"))])
      ≠ ([(0, ⟨true, .content ("old page")⟩, .ok ("redo"))] : List PageUnit).length := by
  decide

/-- C3 amended: for any set of N submitted PageUnits the tally satisfies
successCount + failureCount = N (`SkippedAlreadyDone` results are folded
into the success counter; no separate skip counter exists), and both
counters are independent of the order in which worker results arrive. -/
theorem C3_amended (units units' : List PageUnit) (hperm : units.Perm units') :
    ((tally (runPipeline units)).success + (tally (runPipeline units)).failure
        = units.length)
      ∧ (tally (runPipeline units)).success = (tally (runPipeline units')).success
      ∧ (tally (runPipeline units)).failure = (tally (runPipeline units')).failure := by
  refine ⟨tally_sum_eq_length units, ?_, ?_⟩
  · unfold tally
    rw [tally_success_countP, tally_success_countP]
    simp only [Nat.zero_add, runPipeline]
    exact (hperm.map _).countP_eq _
  · unfold tally
    rw [tally_failure_countP, tally_failure_countP]
    simp only [Nat.zero_add, runPipeline]
    exact (hperm.map _).countP_eq _

/-- C3 witness: the amended tally invariant at a concrete two-unit run and
its swapped completion order. -/
theorem C3_amended_witness :
    (([(0, ⟨false, .missing⟩, .ok ("alpha")), (1, ⟨false, .missing⟩, .loadFail ("io error"))] :
        List PageUnit).Perm
      ([(1, ⟨false, .missing⟩, .loadFail ("io error")), (0, ⟨false, .missing⟩, .ok ("alpha"))]))
    ∧ (((tally (runPipeline
          ([(0, ⟨false, .missing⟩, .ok ("alpha")), (1, ⟨false, .missing⟩, .loadFail ("io error"))]))).success
        + (tally (runPipeline
          ([(0, ⟨false, .missing⟩, .ok ("alpha")), (1, ⟨false, .missing⟩, .loadFail ("io error"))]))).failure
        = ([(0, ⟨false, .missing⟩, .ok ("alpha")), (1, ⟨false, .missing⟩, .loadFail ("io error"))] :
            List PageUnit).length)
      ∧ (tally (runPipeline
          ([(0, ⟨false, .missing⟩, .ok ("alpha")), (1, ⟨false, .missing⟩, .loadFail ("io error"))]))).success
        = (tally (runPipeline
          ([(1, ⟨false, .missing⟩, .loadFail ("io error")), (0, ⟨false, .missing⟩, .ok ("alpha"))]))).success
      ∧ (tally (runPipeline
          ([(0, ⟨false, .missing⟩, .ok ("alpha")), (1, ⟨false, .missing⟩, .loadFail ("io error"))]))).failure
        = (tally (runPipeline
          ([(1, ⟨false, .missing⟩, .loadFail ("io error")), (0, ⟨false, .missing⟩, .ok ("alpha"))]))).failure) :=
  ⟨List.Perm.swap _ _ _, C3_amended _ _ (List.Perm.swap _ _ _)⟩

/-- C4 counterexample: the result returned for a page whose two artifacts
already exist (the `SkippedAlreadyDone` path, line 71) is the very same
value `(True, page_index, None)` returned for a freshly processed success
(line 90) — the claim's "three distinct statuses, SkippedAlreadyDone
distinguishable from Success" is false: the return type carries only two
distinguishable statuses. -/
theorem C4_counterexample :
    (process_page_task 4 (⟨true, .content ("previously recognized")⟩) (.ok ("fresh"))).1
      = (process_page_task 4 (⟨false, .missing⟩) (.ok ("fresh"))).1 := by
  decide

/-- C4 amended: every invocation of the page worker returns exactly one of
the two observable result shapes `(True, page_index, None)` (covering both
fresh successes and already-done pages) or `(False, page_index, Some msg)`;
when both target artifacts already exist it returns `(True, page_index,
None)` immediately, leaving the filesystem untouched (no re-render, no
re-recognition), but that value is not distinguishable from a fresh
success. -/
theorem C4_amended (fs : PageFS) (n : Nat) (eng : EngineOutcome)
    (hpng : fs.png = true) (htxt : fs.txt.existsOnDisk = true) :
    process_page_task n fs eng = (⟨true, n + 1, none⟩, fs)
      ∧ ∀ (fs2 : PageFS) (n2 : Nat) (eng2 : EngineOutcome),
        ((process_page_task n2 fs2 eng2).1.success = true
            ∧ (process_page_task n2 fs2 eng2).1.errorMsg = none)
          ∨ ((process_page_task n2 fs2 eng2).1.success = false
            ∧ ∃ m, (process_page_task n2 fs2 eng2).1.errorMsg = some m) := by
  constructor
  · unfold process_page_task
    rw [hpng, htxt]
    simp
  · intro fs2 n2 eng2
    exact process_page_task_shapes n2 fs2 eng2

/-- C4 witness: the amended worker contract at a concrete already-complete
page. -/
theorem C4_amended_witness :
    ((⟨true, .content ("text")⟩ : PageFS).png = true)
    ∧ ((⟨true, .content ("text")⟩ : PageFS).txt.existsOnDisk = true)
    ∧ (process_page_task 3 (⟨true, .content ("text")⟩ : PageFS) (.ok ("y"))
          = (⟨true, 3 + 1, none⟩, (⟨true, .content ("text")⟩ : PageFS))
        ∧ ∀ (fs2 : PageFS) (n2 : Nat) (eng2 : EngineOutcome),
          ((process_page_task n2 fs2 eng2).1.success = true
              ∧ (process_page_task n2 fs2 eng2).1.errorMsg = none)
            ∨ ((process_page_task n2 fs2 eng2).1.success = false
              ∧ ∃ m, (process_page_task n2 fs2 eng2).1.errorMsg = some m)) :=
  ⟨rfl, rfl, C4_amended (⟨true, .content ("text")⟩ : PageFS) 3 (.ok ("y")) rfl rfl⟩

/-- C5 counterexample: a zero-page PDF in single-file mode.  `setup_and_run`
never checks the page count; with the `all` command `process_pdf` runs over
an empty range and the script exits 0, while the claim requires a non-zero
exit for a zero-page document. -/
theorem C5_counterexample :
    setup_and_run (.isFile (".pdf") (.opened 0 [])) .all = 0 := by
  decide

/-- C5 amended: the command-line surface exits non-zero exactly on a
nonexistent input path, a path that is neither file nor directory, a
single-file input whose lowered suffix is not `.pdf`, or a single-file
input that cannot be opened; it exits zero otherwise — including runs in
which individual pages failed and including a zero-page document (a
zero-page single file processes an empty range; in batch mode it is
recorded as a failed document but the batch still exits zero). -/
theorem C5_amended (p : CLIPath) (m : Mode) :
    (setup_and_run p m = 0 ∨ setup_and_run p m = 1)
      ∧ (setup_and_run p m = 1 ↔
          (p = CLIPath.missing ∨ p = CLIPath.other
            ∨ (∃ suffix d, p = CLIPath.isFile suffix d ∧ lowerStr suffix ≠ (".pdf"))
            ∨ (∃ suffix msg, p = CLIPath.isFile suffix (DocBehavior.openFail msg)
                ∧ lowerStr suffix = (".pdf")))) := by
  cases p with
  | missing =>
      exact ⟨Or.inr rfl, by simp [setup_and_run]⟩
  | other =>
      exact ⟨Or.inr rfl, by simp [setup_and_run]⟩
  | isDir docs =>
      refine ⟨Or.inl rfl, ?_⟩
      constructor
      · intro h
        simp [setup_and_run] at h
      · intro h
        rcases h with h | h | ⟨s, d, h, _⟩ | ⟨s, mg, h, _⟩ <;> cases h
  | isFile suffix d =>
      by_cases hs : lowerStr suffix = ".pdf"
      · cases d with
        | openFail mg =>
            have h1 : setup_and_run (CLIPath.isFile suffix (DocBehavior.openFail mg)) m = 1 := by
              simp [setup_and_run, hs]
            refine ⟨Or.inr h1, ?_⟩
            constructor
            · intro _
              exact Or.inr (Or.inr (Or.inr ⟨suffix, mg, rfl, hs⟩))
            · intro _
              exact h1
        | opened total units =>
            have h0 : setup_and_run (CLIPath.isFile suffix (DocBehavior.opened total units)) m
                = 0 := by
              cases m <;> simp [setup_and_run, hs]
            refine ⟨Or.inl h0, ?_⟩
            rw [h0]
            constructor
            · intro h
              exact absurd h (by decide)
            · intro h
              exfalso
              rcases h with h | h | ⟨s, d', hEq, hne⟩ | ⟨s, mg, hEq, _⟩
              · cases h
              · cases h
              · cases hEq
                exact hne hs
              · cases hEq
      · have h1 : setup_and_run (CLIPath.isFile suffix d) m = 1 := by
          simp [setup_and_run, hs]
        refine ⟨Or.inr h1, ?_⟩
        rw [h1]
        constructor
        · intro _
          exact Or.inr (Or.inr (Or.inl ⟨suffix, d, rfl, hs⟩))
        · intro _
          rfl

/-- C6 counterexample: a successfully recognized page whose text contains
the substring `OCR FAILED` without beginning with it (it is not a failure
sentinel).  All three aggregation passes exclude it — the combine pass puts
it in the skipped list, the word pass records no page entry, the NER pass
processes no page — refuting "a successfully recognized page's content is
never excluded" and the "beginning with the fixed marker" identification. -/
theorem C6_counterexample :
    (combine_text_files (buildFS ([(1, .content (c6text))])) 1 1) = ([], [1])
      ∧ (generate_word_count_csv (buildFS ([(1, .content (c6text))])) 1 1).pageCounts = []
      ∧ proper_names_pages (buildFS ([(1, .content (c6text))])) 1 1 = []
      ∧ OCR_FAILED_MARKER.data.isPrefixOf (c6text).data = false := by
  refine ⟨?_, ?_, ?_, ?_⟩ <;> decide

/-- C6 amended: every aggregation pass (combine, word statistics, entity
statistics) processes a page of the range iff its text artifact is present,
readable, and its content does not contain the substring `OCR FAILED`
anywhere.  Every failure sentinel contains that marker (it begins with it),
so failed pages are always excluded, but a successfully recognized page
whose text merely contains the marker is excluded as well. -/
theorem C6_amended (σ : Nat → TxtArtifact) (s e p : Nat) (msg str : String) :
    (p ∈ ((combine_text_files σ s e).1).map Prod.fst
        ↔ p ∈ pageRange s e ∧ pageExcluded (σ p) = false)
      ∧ (p ∈ ((generate_word_count_csv σ s e).pageCounts).map Prod.fst
        ↔ p ∈ pageRange s e ∧ pageExcluded (σ p) = false)
      ∧ (p ∈ proper_names_pages σ s e
        ↔ p ∈ pageRange s e ∧ pageExcluded (σ p) = false)
      ∧ pageExcluded (.content (sentinelText msg)) = true
      ∧ pageExcluded (.content str) = hasFailureMarker str
      ∧ pageExcluded .missing = true
      ∧ pageExcluded .unreadable = true := by
  refine ⟨?_, ?_, ?_, ?_, rfl, rfl, rfl⟩
  · unfold combine_text_files
    rw [combine_fold_pages]
    simp [List.mem_filter]
  · unfold generate_word_count_csv
    rw [word_report_fold_pages]
    simp [List.mem_filter]
  · unfold proper_names_pages
    rw [proper_names_fold_pages]
    simp [List.mem_filter]
  · simp [pageExcluded, hasFailureMarker_sentinel]

/-- C7: for a fixed set of per-page artifact writes (one write per page,
in any completion order), the combine pass produces identical in-memory
results and byte-identical combined output, and the pages it includes are
visited in strictly increasing page-index order. -/
theorem C7_combine_deterministic (l l' : List (Nat × TxtArtifact)) (s e : Nat)
    (hnodup : (l.map Prod.fst).Nodup) (hperm : l.Perm l') :
    combinedOutput (buildFS l) s e = combinedOutput (buildFS l') s e
      ∧ combine_text_files (buildFS l) s e = combine_text_files (buildFS l') s e
      ∧ (((combine_text_files (buildFS l) s e).1).map Prod.fst).Pairwise (· < ·) := by
  have hfs := buildFS_perm l l' hnodup hperm
  refine ⟨by rw [hfs], by rw [hfs], ?_⟩
  unfold combine_text_files
  rw [combine_fold_pages]
  simp only [List.map_nil, List.nil_append]
  unfold pageRange
  exact List.Pairwise.sublist (List.filter_sublist _)
    (List.pairwise_lt_range' s (e + 1 - s))

/-- C7 witness: the combine pass at two concrete write orders for pages
1 and 2. -/
theorem C7_combine_deterministic_witness :
    ((([(2, .content ("beta")), (1, .content ("alpha"))] :
          List (Nat × TxtArtifact)).map Prod.fst).Nodup)
    ∧ (([(2, .content ("beta")), (1, .content ("alpha"))] :
          List (Nat × TxtArtifact)).Perm
        ([(1, .content ("alpha")), (2, .content ("beta"))]))
    ∧ (combinedOutput (buildFS ([(2, .content ("beta")), (1, .content ("alpha"))])) 1 2
          = combinedOutput (buildFS ([(1, .content ("alpha")), (2, .content ("beta"))])) 1 2
        ∧ combine_text_files (buildFS ([(2, .content ("beta")), (1, .content ("alpha"))])) 1 2
          = combine_text_files (buildFS ([(1, .content ("alpha")), (2, .content ("beta"))])) 1 2
        ∧ (((combine_text_files
              (buildFS ([(2, .content ("beta")), (1, .content ("alpha"))])) 1 2).1).map
            Prod.fst).Pairwise (· < ·)) :=
  ⟨by decide, List.Perm.swap _ _ _,
    C7_combine_deterministic _ _ 1 2 (by decide) (List.Perm.swap _ _ _)⟩

/-- C8: the word-statistics pass on the spec's two-page example produces
exactly the claimed statistics — 6 kept tokens in total, 3 per page,
"the" and "cat" with count 2 on pages 1 and 2, "sat" and "ran" with
count 1 — and, in general, every token the pass keeps is an alphanumeric
word of length greater than 2 (case folding is visible in the example:
"The" is recorded as "the"). -/
theorem C8_word_statistics :
    generate_word_count_csv c8Store 1 2
        = ⟨6, [(1, 3), (2, 3)],
           [⟨("the"), 2, [1, 2]⟩, ⟨("cat"), 2, [1, 2]⟩,
            ⟨("sat"), 1, [1]⟩, ⟨("ran"), 1, [2]⟩]⟩
      ∧ tokenize ("The cat sat.") = [("the"), ("cat"), ("sat")]
      ∧ tokenize ("The cat ran.") = [("the"), ("cat"), ("ran")]
      ∧ ∀ s : String, (tokenize s).all
          (fun w => decide (2 < w.length)
            && w.data.all (fun c => isWordChar c && !(c == '_'))) = true := by
  refine ⟨by decide, by decide, by decide, ?_⟩
  intro s
  rw [List.all_eq_true]
  intro w hw
  unfold tokenize at hw
  simp only at hw
  rcases List.mem_map.1 hw with ⟨r, hr, rfl⟩
  rcases List.mem_filter.1 hr with ⟨hr2, hlen⟩
  rcases List.mem_filter.1 hr2 with ⟨hr3, hund⟩
  have hword : ∀ c ∈ r, isWordChar c = true :=
    runsAux_pred isWordChar (s.data.map Char.toLower) [] (by simp) r hr3
  rw [Bool.and_eq_true]
  constructor
  · exact hlen
  · rw [List.all_eq_true]
    intro c hc
    have hc' : c ∈ r := hc
    rw [Bool.and_eq_true]
    refine ⟨hword c hc', ?_⟩
    cases hbe : (c == '_') with
    | false => rfl
    | true =>
        exfalso
        have hcu : c = '_' := eq_of_beq hbe
        subst hcu
        have helem : r.elem '_' = true := List.elem_iff.2 hc'
        have : r.contains '_' = true := helem
        rw [this] at hund
        exact absurd hund (by decide)

/-- C9: in batch mode, a directory of three documents where only the second
is corrupt still fully processes documents 1 and 3 (they are listed as
successful) and reports exactly one failed entry, with exactly one block
appended to the error log; in general, every submitted document lands in
exactly one of the two result lists and the error log receives exactly one
block per failed document. -/
theorem C9_batch_isolation (n1 n2 n3 msg : String) (t1 t3 : Nat)
    (u1 u3 : List PageUnit) :
    ((process_directory ([(n1, .opened (t1 + 1) u1), (n2, .openFail msg),
          (n3, .opened (t3 + 1) u3)])).1.successful = [n1, n3]
      ∧ (process_directory ([(n1, .opened (t1 + 1) u1), (n2, .openFail msg),
          (n3, .opened (t3 + 1) u3)])).1.failed = [(n2, msg)]
      ∧ (process_directory ([(n1, .opened (t1 + 1) u1), (n2, .openFail msg),
          (n3, .opened (t3 + 1) u3)])).2 = [(n2, msg)])
    ∧ ∀ docs : List (String × DocBehavior),
        ((process_directory docs).1.successful.length
            + (process_directory docs).1.failed.length = docs.length)
          ∧ (process_directory docs).2.length
            = (process_directory docs).1.failed.length := by
  constructor
  · refine ⟨?_, ?_, ?_⟩ <;>
      simp [process_directory, batchStep, process_single_pdf, process_pdf]
  · intro docs
    have h := batch_fold_counts docs (⟨[], []⟩, [])
    unfold process_directory
    refine ⟨?_, ?_⟩
    · have h1 := h.1
      simpa using h1
    · have h2 := h.2
      simpa using h2

/-- C10: in batch mode a document whose pipeline run completes is recorded
as successful no matter what its page results were — per-page failures are
absorbed by the tally and never reach `BatchOutcome.success`. -/
theorem C10_page_failures_not_fatal (total : Nat) (units : List PageUnit)
    (h : 0 < total) :
    process_single_pdf (.opened total units) = (true, none) := by
  cases total with
  | zero => exact absurd h (by decide)
  | succ n => rfl

/-- C10 witness: a one-page document whose only page fails is still a
successful batch outcome. -/
theorem C10_page_failures_not_fatal_witness :
    0 < 1
    ∧ process_single_pdf
        (.opened 1 ([(0, ⟨false, .missing⟩, .loadFail ("corrupt stream"))]))
      = (true, none) :=
  ⟨by decide,
    C10_page_failures_not_fatal 1
      ([(0, ⟨false, .missing⟩, .loadFail ("corrupt stream"))]) (by decide)⟩

end PdfExtractor
